import Mathlib

/-!
Shallow embedding of the social-media core of the repository
(`social_media_api`): the social graph operations (`FollowUserView.post`,
`UnfollowUserView.post` in `accounts/views.py`), feed assembly
(`FeedView.get_queryset` in `posts/views.py`, paginated by the
settings-default paginator),
engagement operations (`LikePostView.create`, `UnlikePostView.delete` in
`posts/views.py`) and notification delivery (`NotificationListView`,
`UnreadNotificationCountView` in `notifications/views.py`).

Database rows become lists of records inside a `Store`; each Django view
becomes a function from a `Store` (plus the request parameters) to an
`Except Err` result carrying the response payload and the updated store.
Users are identified by their primary key (`Nat`); Django object equality
on model instances is primary-key equality.
-/

namespace SocialMedia

/-- Error taxonomy of the request handlers: `notFound` is Django's 404 from
`get_object_or_404`, `invalidOperation` and `alreadyExists` are the 400
responses the views build explicitly. -/
inductive Err where
  | notFound
  | invalidOperation
  | alreadyExists
deriving DecidableEq

/-- A row of the `Post` model: primary key, author (user primary key),
title, content, creation timestamp (timestamps are abstract `Nat` ticks). -/
structure Post where
  id : Nat
  author : Nat
  title : String
  content : String
  created_at : Nat
deriving DecidableEq

/-- A row of the `Like` model: the `(user, post)` pair
(`Like.objects.get_or_create(user=request.user, post=post)` keys on exactly
these two fields). -/
structure Like where
  user : Nat
  post : Nat
deriving DecidableEq

/-- A row of the `Notification` model (`notifications/models.py`): recipient
and actor are user primary keys, `object_id` is the generic-foreign-key
target's primary key (always a post in this flow), `read` defaults to
false, `created_at` is the auto-set creation timestamp. -/
structure Notification where
  recipient : Nat
  actor : Nat
  verb : String
  object_id : Nat
  read : Bool
  created_at : Nat
deriving DecidableEq

/-- The relational store shared by all request handlers: user primary keys,
the self-referential `following` many-to-many relation as (follower,
followee) pairs, and the three content tables. `clock` supplies the next
creation timestamp. -/
structure Store where
  users : List Nat
  following : List (Nat × Nat)
  posts : List Post
  likes : List Like
  notifications : List Notification
  clock : Nat
deriving DecidableEq

/-- Lookup of a post by primary key: `generics.get_object_or_404(Post, pk=pk)`
returns the row or 404s. -/
def findPost (s : Store) (pk : Nat) : Option Post :=
  s.posts.find? (fun p => p.id == pk)

/-- `request.user.following.count()`: the number of users `u` follows. -/
def followingCount (s : Store) (u : Nat) : Nat :=
  (s.following.filter (fun q => q.1 == u)).length

/-- `request.user.following.all()`: the list of user ids `u` follows. -/
def followees (s : Store) (u : Nat) : List Nat :=
  (s.following.filter (fun q => q.1 == u)).map (fun q => q.2)

/-- `FollowUserView.post` (`accounts/views.py`): 404 if the target user does
not exist, 400 if the target is the requester, 400 if already following,
otherwise add the edge and respond with the new following count. -/
def follow (s : Store) (u t : Nat) : Except Err (Nat × Store) :=
  if t ∉ s.users then .error .notFound
  else if t = u then .error .invalidOperation
  else if (u, t) ∈ s.following then .error .alreadyExists
  else
    let s' := { s with following := s.following ++ [(u, t)] }
    .ok (followingCount s' u, s')

/-- `UnfollowUserView.post` (`accounts/views.py`): 404 if the target user
does not exist, 400 if not currently following, otherwise remove the edge
and respond with the new following count. -/
def unfollow (s : Store) (u t : Nat) : Except Err (Nat × Store) :=
  if t ∉ s.users then .error .notFound
  else if (u, t) ∉ s.following then .error .invalidOperation
  else
    let s' := { s with following := s.following.filter (fun q => q != (u, t)) }
    .ok (followingCount s' u, s')

/-- Insertion step of the `order_by` embedding: place `x` in front of the
first element whose key is not larger. -/
def insertDescBy {α : Type} (key : α → Nat) (x : α) : List α → List α
  | [] => [x]
  | y :: ys => if key y ≤ key x then x :: y :: ys else y :: insertDescBy key x ys

/-- Embedding of the ORM's `order_by` on a descending `Nat` key
(insertion sort). -/
def sortDescBy {α : Type} (key : α → Nat) : List α → List α
  | [] => []
  | x :: xs => insertDescBy key x (sortDescBy key xs)

/-- `FeedView.get_queryset` (`posts/views.py`):
`Post.objects.filter(author__in=following_users).order_by(-created_at)`.
A pure read: the type `Store → Nat → List Post` records that no store
mutation occurs. -/
def getFeed (s : Store) (u : Nat) : List Post :=
  sortDescBy (fun p => p.created_at)
    (s.posts.filter (fun p => (followees s u).contains p.author))

/-- Modelled from the library: the page-size resolution of the paginator the
feed actually uses. `FeedView` (`posts/views.py`) sets no `pagination_class`
(only `PostViewSet` attaches `PostPagination`), so the feed falls back to
`DEFAULT_PAGINATION_CLASS = rest_framework.pagination.PageNumberPagination`
with `PAGE_SIZE = 10` (`settings.py`). The stock `PageNumberPagination` has
`page_size_query_param = None` and `max_page_size = None`, so its
`get_page_size` never consults the request: the resolved page size is the
fixed 10 whatever `page_size` query parameter (the argument here) the client
sends. -/
def feedPageSize (_pageSizeParam : Option Nat) : Nat := 10

/-- One response page of the feed: the default `PageNumberPagination` slices
the ordered queryset into pages of the resolved size (`pageNum` is
1-based). -/
def feedPage (s : Store) (u : Nat) (pageNum : Nat) (pageSizeParam : Option Nat) : List Post :=
  let k := feedPageSize pageSizeParam
  ((getFeed s u).drop ((pageNum - 1) * k)).take k

/-- `LikePostView.create` (`posts/views.py`): 404 if the post is absent;
`get_or_create` on `(user, post)`, answering 400 when the row already
existed; on creation, if the post's author is not the requester, create one
`Notification(recipient=author, actor=requester, verb="liked your post",
target=post)`; respond 201 with the created like. -/
def like (s : Store) (u pk : Nat) : Except Err (Like × Store) :=
  match findPost s pk with
  | none => .error .notFound
  | some post =>
    if Like.mk u pk ∈ s.likes then .error .alreadyExists
    else
      let s1 := { s with likes := s.likes ++ [Like.mk u pk] }
      if post.author = u then .ok (Like.mk u pk, s1)
      else
        .ok (Like.mk u pk,
          { s1 with
            notifications := s1.notifications ++
              [{ recipient := post.author, actor := u, verb := "liked your post",
                 object_id := pk, read := false, created_at := s.clock }],
            clock := s.clock + 1 })

/-- `UnlikePostView.delete` (`posts/views.py`): 404 if the post is absent,
404 if no `(user, post)` like row exists (`get_object_or_404(Like, ...)`),
otherwise delete that like row. Notifications are not touched. -/
def unlike (s : Store) (u pk : Nat) : Except Err Store :=
  match findPost s pk with
  | none => .error .notFound
  | some _ =>
    if Like.mk u pk ∉ s.likes then .error .notFound
    else .ok { s with likes := s.likes.filter (fun l => l != Like.mk u pk) }

/-- The store after a `like` request, identical to the input store when the
request fails. -/
def likeState (s : Store) (u pk : Nat) : Store :=
  match like s u pk with
  | .ok (_, s') => s'
  | .error _ => s

/-- The store after an `unlike` request, identical to the input store when
the request fails. -/
def unlikeState (s : Store) (u pk : Nat) : Store :=
  match unlike s u pk with
  | .ok s' => s'
  | .error _ => s

/-- The store after an `unfollow` request, identical to the input store when
the request fails. -/
def unfollowState (s : Store) (u t : Nat) : Store :=
  match unfollow s u t with
  | .ok (_, s') => s'
  | .error _ => s

/-- One engagement request (a `like` or an `unlike` by any user on any post
id), as a step relation on stores. -/
inductive EngagementStep : Store → Store → Prop where
  | like (u pk : Nat) (s : Store) : EngagementStep s (likeState s u pk)
  | unlike (u pk : Nat) (s : Store) : EngagementStep s (unlikeState s u pk)

/-- Reachability by any finite sequence of engagement requests. -/
inductive EngagementReach : Store → Store → Prop where
  | refl (s : Store) : EngagementReach s s
  | step {s t r : Store} : EngagementReach s t → EngagementStep t r → EngagementReach s r

/-- The number of `Like` rows for a given `(user, post)` pair. -/
def likeCount (s : Store) (u pk : Nat) : Nat :=
  (s.likes.filter (fun l => l == Like.mk u pk)).length

/-- The bulk update in `NotificationListView.get`:
`Notification.objects.filter(recipient=request.user, read=False).update(read=True)`
applied to one row. -/
def markReadRow (u : Nat) (n : Notification) : Notification :=
  if n.recipient == u && n.read == false then { n with read := true } else n

/-- The store after the bulk mark-as-read update for user `u`. -/
def markAllRead (s : Store) (u : Nat) : Store :=
  { s with notifications := s.notifications.map (markReadRow u) }

/-- `NotificationListView.get_queryset` (`notifications/views.py`):
`Notification.objects.filter(recipient=user).order_by(-created_at)`. -/
def notificationsFor (s : Store) (u : Nat) : List Notification :=
  sortDescBy (fun n => n.created_at)
    (s.notifications.filter (fun n => n.recipient == u))

/-- `NotificationListView.get` (`notifications/views.py`): first the bulk
mark-as-read update runs, then the list view evaluates its queryset against
the updated store and serializes it. Returns the response list and the
updated store. -/
def listNotifications (s : Store) (u : Nat) : List Notification × Store :=
  let s' := markAllRead s u
  (notificationsFor s' u, s')

/-- `UnreadNotificationCountView.get` (`notifications/views.py`): the count
of the user's unread notifications; a pure read. -/
def unreadCount (s : Store) (u : Nat) : Nat :=
  (s.notifications.filter (fun n => n.recipient == u && n.read == false)).length

/-- Inserting an element permutes consing it. -/
theorem perm_insertDescBy {α : Type} (key : α → Nat) (x : α) (l : List α) :
    List.Perm (insertDescBy key x l) (x :: l) := by
  induction l with
  | nil => exact List.Perm.refl _
  | cons y ys ih =>
    unfold insertDescBy
    by_cases h : key y ≤ key x
    · simp [h]
    · simp only [h, if_false]
      exact (List.Perm.cons y ih).trans (List.Perm.swap x y ys)

/-- The `order_by` embedding returns a permutation of its input. -/
theorem perm_sortDescBy {α : Type} (key : α → Nat) (l : List α) :
    List.Perm (sortDescBy key l) l := by
  induction l with
  | nil => exact List.Perm.refl _
  | cons x xs ih =>
    exact (perm_insertDescBy key x (sortDescBy key xs)).trans (List.Perm.cons x ih)

/-- Membership is preserved by the `order_by` embedding. -/
theorem mem_sortDescBy {α : Type} (key : α → Nat) (l : List α) (a : α) :
    a ∈ sortDescBy key l ↔ a ∈ l :=
  (perm_sortDescBy key l).mem_iff

/-- Insertion preserves descending sortedness. -/
theorem pairwise_insertDescBy {α : Type} (key : α → Nat) (x : α) (l : List α)
    (h : l.Pairwise (fun a b => key b ≤ key a)) :
    (insertDescBy key x l).Pairwise (fun a b => key b ≤ key a) := by
  induction l with
  | nil => simp [insertDescBy]
  | cons y ys ih =>
    rcases List.pairwise_cons.mp h with ⟨hy, hys⟩
    unfold insertDescBy
    by_cases hxy : key y ≤ key x
    · simp only [hxy, if_true]
      refine List.pairwise_cons.mpr ⟨?_, h⟩
      intro b hb
      rcases List.mem_cons.mp hb with rfl | hb
      · exact hxy
      · exact le_trans (hy b hb) hxy
    · simp only [hxy, if_false]
      refine List.pairwise_cons.mpr ⟨?_, ih hys⟩
      intro b hb
      rcases (perm_insertDescBy key x ys).mem_iff.mp hb with hb'
      rcases List.mem_cons.mp hb' with rfl | hb''
      · exact le_of_lt (lt_of_not_le hxy)
      · exact hy b hb''

/-- The `order_by` embedding is sorted descending on the key. -/
theorem pairwise_sortDescBy {α : Type} (key : α → Nat) (l : List α) :
    (sortDescBy key l).Pairwise (fun a b => key b ≤ key a) := by
  induction l with
  | nil => simp [sortDescBy]
  | cons x xs ih => exact pairwise_insertDescBy key x (sortDescBy key xs) ih

/-- A store used to evaluate the theorems on concrete inputs: two users,
nobody following anybody, one post by user 2, no likes, no notifications. -/
def storeW : Store :=
  { users := [1, 2], following := [],
    posts := [{ id := 10, author := 2, title := "t", content := "c", created_at := 0 }],
    likes := [], notifications := [], clock := 7 }

/-- C3: `follow` answers NotFound when the target user id does not exist,
InvalidOperation when the (existing) target is the requester — so a
self-follow always fails — AlreadyExists when the edge is already present,
and otherwise appends the edge and returns the new following count. -/
theorem follow_spec (s : Store) (u t : Nat) :
    (t ∉ s.users → follow s u t = .error .notFound)
  ∧ (t ∈ s.users → t = u → follow s u t = .error .invalidOperation)
  ∧ (t = u → follow s u t = .error .notFound ∨ follow s u t = .error .invalidOperation)
  ∧ (t ∈ s.users → t ≠ u → (u, t) ∈ s.following → follow s u t = .error .alreadyExists)
  ∧ (t ∈ s.users → t ≠ u → (u, t) ∉ s.following →
      follow s u t =
        .ok (followingCount { s with following := s.following ++ [(u, t)] } u,
             { s with following := s.following ++ [(u, t)] })) := by
  refine ⟨?_, ?_, ?_, ?_, ?_⟩
  · intro h; simp [follow, h]
  · intro h1 h2; subst h2; simp [follow, h1]
  · intro h2
    subst h2
    by_cases h1 : t ∈ s.users
    · right; simp [follow, h1]
    · left; simp [follow, h1]
  · intro h1 h2 h3; simp [follow, h1, h2, h3]
  · intro h1 h2 h3; simp [follow, h1, h2, h3]

/-- Witness: in `storeW`, user 1 successfully follows user 2 and the
response carries the new count. -/
theorem follow_spec_witness :
    follow storeW 1 2 =
      .ok (followingCount { storeW with following := storeW.following ++ [(1, 2)] } 1,
           { storeW with following := storeW.following ++ [(1, 2)] }) :=
  (follow_spec storeW 1 2).2.2.2.2 (by decide) (by decide) (by decide)

/-- C6: `unfollow` answers NotFound when the target user id does not exist,
InvalidOperation when the edge is not present — leaving the store
unchanged — and otherwise removes the edge and returns the new following
count. -/
theorem unfollow_spec (s : Store) (u t : Nat) :
    (t ∉ s.users → unfollow s u t = .error .notFound)
  ∧ (t ∈ s.users → (u, t) ∉ s.following →
      unfollow s u t = .error .invalidOperation ∧ unfollowState s u t = s)
  ∧ (t ∈ s.users → (u, t) ∈ s.following →
      unfollow s u t =
        .ok (followingCount { s with following := s.following.filter (fun q => q != (u, t)) } u,
             { s with following := s.following.filter (fun q => q != (u, t)) })) := by
  refine ⟨?_, ?_, ?_⟩
  · intro h; simp [unfollow, h]
  · intro h1 h2
    exact ⟨by simp [unfollow, h1, h2], by simp [unfollowState, unfollow, h1, h2]⟩
  · intro h1 h2; simp [unfollow, h1, h2]

/-- Witness: in `storeW`, user 1 does not follow user 2, so unfollowing
answers InvalidOperation and the store is unchanged. -/
theorem unfollow_spec_witness :
    unfollow storeW 1 2 = .error .invalidOperation ∧ unfollowState storeW 1 2 = storeW :=
  (unfollow_spec storeW 1 2).2.1 (by decide) (by decide)

/-- C7: when a follow succeeds, the immediately following unfollow succeeds
and returns exactly the following count the requester had before the
follow. -/
theorem follow_unfollow_restores_count (s : Store) (u t c : Nat) (s₁ : Store)
    (h : follow s u t = .ok (c, s₁)) :
    ∃ s₂, unfollow s₁ u t = .ok (followingCount s u, s₂) := by
  by_cases h2 : t = u
  · subst h2
    by_cases h1 : t ∈ s.users <;> simp [follow, h1] at h
  · by_cases h1 : t ∈ s.users
    · by_cases h3 : (u, t) ∈ s.following
      · simp [follow, h1, h2, h3] at h
      · simp only [follow, h1, not_true_eq_false, if_false, h2, h3,
          not_false_eq_true, if_true, if_neg] at h
        rcases h with ⟨hc, hs⟩
        have hfil : (s.following ++ [(u, t)]).filter (fun q => q != (u, t)) = s.following := by
          rw [List.filter_append]
          have hself : s.following.filter (fun q => q != (u, t)) = s.following := by
            refine List.filter_eq_self.mpr ?_
            intro q hq
            rw [bne_iff_ne]
            intro he
            exact h3 (he ▸ hq)
          simp [hself]
        have hmem : (u, t) ∈ s.following ++ [(u, t)] :=
          List.mem_append_right _ (List.mem_singleton.mpr rfl)
        refine ⟨{ s with following :=
          (s.following ++ [(u, t)]).filter (fun q => q != (u, t)) }, ?_⟩
        simp only [unfollow]
        rw [if_neg (by simp [h1]), if_neg (by simp [hmem])]
        simp [hfil, followingCount]
    · simp [follow, h1] at h

/-- Witness: in `storeW`, follow then unfollow by user 1 on user 2 brings
the count back to `followingCount storeW 1`. -/
theorem follow_unfollow_restores_count_witness :
    ∃ s₂, unfollow { storeW with following := storeW.following ++ [(1, 2)] } 1 2 =
      .ok (followingCount storeW 1, s₂) :=
  follow_unfollow_restores_count storeW 1 2
    (followingCount { storeW with following := storeW.following ++ [(1, 2)] } 1)
    { storeW with following := storeW.following ++ [(1, 2)] } rfl

/-- C1: `like` answers NotFound when the post id does not resolve,
AlreadyExists when the `(user, post)` like row already exists, and
otherwise creates exactly that like row, returns it, and appends exactly
one notification (recipient = post author, actor = requester,
verb = "liked your post", target = the post) when and only when the post's
author differs from the requester. -/
theorem like_spec (s : Store) (u pk : Nat) :
    (findPost s pk = none → like s u pk = .error .notFound)
  ∧ (∀ post, findPost s pk = some post → Like.mk u pk ∈ s.likes →
      like s u pk = .error .alreadyExists)
  ∧ (∀ post, findPost s pk = some post → Like.mk u pk ∉ s.likes →
      ∃ s', like s u pk = .ok (Like.mk u pk, s') ∧
        s'.likes = s.likes ++ [Like.mk u pk] ∧
        (post.author = u → s'.notifications = s.notifications) ∧
        (post.author ≠ u →
          s'.notifications = s.notifications ++
            [{ recipient := post.author, actor := u, verb := "liked your post",
               object_id := pk, read := false, created_at := s.clock }])) := by
  refine ⟨?_, ?_, ?_⟩
  · intro h; simp [like, h]
  · intro post hfp hm; simp [like, hfp, hm]
  · intro post hfp hm
    by_cases ha : post.author = u
    · refine ⟨{ s with likes := s.likes ++ [Like.mk u pk] }, ?_, by simp, fun _ => by simp,
        fun hne => absurd ha hne⟩
      simp [like, hfp, hm, ha]
    · refine ⟨{ s with
                  likes := s.likes ++ [Like.mk u pk],
                  notifications := s.notifications ++
                    [{ recipient := post.author, actor := u, verb := "liked your post",
                       object_id := pk, read := false, created_at := s.clock }],
                  clock := s.clock + 1 },
        ?_, by simp, fun he => absurd he ha, fun _ => by simp⟩
      simp [like, hfp, hm, ha]

/-- Witness: in `storeW`, user 1 likes post 10 (authored by user 2); the
like row is created and one notification to user 2 is appended. -/
theorem like_spec_witness :
    ∃ s', like storeW 1 10 = .ok (Like.mk 1 10, s') ∧
      s'.likes = storeW.likes ++ [Like.mk 1 10] ∧
      ((⟨10, 2, "t", "c", 0⟩ : Post).author = 1 → s'.notifications = storeW.notifications) ∧
      ((⟨10, 2, "t", "c", 0⟩ : Post).author ≠ 1 →
        s'.notifications = storeW.notifications ++
          [{ recipient := (⟨10, 2, "t", "c", 0⟩ : Post).author, actor := 1,
             verb := "liked your post", object_id := 10, read := false,
             created_at := storeW.clock }]) :=
  (like_spec storeW 1 10).2.2 ⟨10, 2, "t", "c", 0⟩ rfl (by decide)

/-- C8: `unlike` answers NotFound when the post id does not resolve or when
no `(user, post)` like row exists, otherwise deletes exactly that like row
(every other like row is kept); in every case the notification table is
unchanged. -/
theorem unlike_spec (s : Store) (u pk : Nat) :
    (findPost s pk = none → unlike s u pk = .error .notFound)
  ∧ (findPost s pk ≠ none → Like.mk u pk ∉ s.likes → unlike s u pk = .error .notFound)
  ∧ (findPost s pk ≠ none → Like.mk u pk ∈ s.likes →
      unlike s u pk = .ok { s with likes := s.likes.filter (fun l => l != Like.mk u pk) })
  ∧ (unlikeState s u pk).notifications = s.notifications := by
  refine ⟨?_, ?_, ?_, ?_⟩
  · intro h; simp [unlike, h]
  · intro h1 hm
    rcases Option.ne_none_iff_exists'.mp h1 with ⟨post, hfp⟩
    simp [unlike, hfp, hm]
  · intro h1 hm
    rcases Option.ne_none_iff_exists'.mp h1 with ⟨post, hfp⟩
    simp [unlike, hfp, hm]
  · unfold unlikeState unlike
    cases hfp : findPost s pk with
    | none => rfl
    | some post =>
      by_cases hm : Like.mk u pk ∈ s.likes
      · simp [hm]
      · simp [hm]

/-- Witness: in a store where user 1 has liked post 10, unliking removes
that row. -/
theorem unlike_spec_witness :
    unlike { storeW with likes := [Like.mk 1 10] } 1 10 =
      .ok { { storeW with likes := [Like.mk 1 10] } with
        likes := ([Like.mk 1 10] : List Like).filter (fun l => l != Like.mk 1 10) } :=
  (unlike_spec { storeW with likes := [Like.mk 1 10] } 1 10).2.2.1 (by decide) (by decide)

/-- Appending one like row changes a pair's row count by one exactly when
the new row is that pair. -/
theorem likeFilter_append_singleton (l : List Like) (x : Like) (a b : Nat) :
    ((l ++ [x]).filter (fun y => y == Like.mk a b)).length =
      (l.filter (fun y => y == Like.mk a b)).length + (if x = Like.mk a b then 1 else 0) := by
  rw [List.filter_append]
  by_cases hx : x = Like.mk a b
  · simp [hx, List.filter]
  · have hb : (x == Like.mk a b) = false := beq_eq_false_iff_ne.mpr hx
    simp [List.filter, hb, hx]

/-- A pair not present among the like rows has row count zero. -/
theorem likeFilter_zero_of_not_mem (l : List Like) (a b : Nat) (h : Like.mk a b ∉ l) :
    (l.filter (fun y => y == Like.mk a b)).length = 0 := by
  rw [List.length_eq_zero, List.filter_eq_nil_iff]
  intro y hy
  simp only [beq_iff_eq]
  intro he
  exact h (he ▸ hy)

/-- A `like` request preserves the at-most-one-row-per-pair bound. -/
theorem likeCount_le_one_likeState (s : Store) (u pk : Nat)
    (h : ∀ a b, likeCount s a b ≤ 1) : ∀ a b, likeCount (likeState s u pk) a b ≤ 1 := by
  intro a b
  unfold likeState like
  cases hfp : findPost s pk with
  | none => exact h a b
  | some post =>
    by_cases hm : Like.mk u pk ∈ s.likes
    · simp only [hm, if_true]
      exact h a b
    · by_cases ha : post.author = u
      · simp only [hm, if_false, ha, if_true]
        unfold likeCount
        simp only
        rw [likeFilter_append_singleton]
        by_cases he : Like.mk u pk = Like.mk a b
        · rw [if_pos he, likeFilter_zero_of_not_mem s.likes a b (he ▸ hm)]
        · rw [if_neg he, Nat.add_zero]
          exact h a b
      · simp only [hm, if_false, ha, if_true]
        unfold likeCount
        simp only
        rw [likeFilter_append_singleton]
        by_cases he : Like.mk u pk = Like.mk a b
        · rw [if_pos he, likeFilter_zero_of_not_mem s.likes a b (he ▸ hm)]
        · rw [if_neg he, Nat.add_zero]
          exact h a b

/-- An `unlike` request preserves the at-most-one-row-per-pair bound. -/
theorem likeCount_le_one_unlikeState (s : Store) (u pk : Nat)
    (h : ∀ a b, likeCount s a b ≤ 1) : ∀ a b, likeCount (unlikeState s u pk) a b ≤ 1 := by
  intro a b
  unfold unlikeState unlike
  cases hfp : findPost s pk with
  | none => exact h a b
  | some post =>
    by_cases hm : Like.mk u pk ∈ s.likes
    · simp only [hm, not_true_eq_false, if_false, if_neg, not_false_eq_true]
      refine le_trans ?_ (h a b)
      unfold likeCount
      simp only
      exact List.Sublist.length_le
        (List.Sublist.filter _ (List.filter_sublist s.likes))
    · simp only [hm, not_false_eq_true, if_true]
      exact h a b

/-- C4: starting from a store with no like rows, every store reachable by
any sequence of `like` and `unlike` requests has at most one like row per
`(user, post)` pair. -/
theorem at_most_one_like_per_pair (s₀ s : Store) (h₀ : s₀.likes = [])
    (h : EngagementReach s₀ s) : ∀ u pk, likeCount s u pk ≤ 1 := by
  have hbase : ∀ a b, likeCount s₀ a b ≤ 1 := by
    intro a b
    unfold likeCount
    rw [h₀]
    simp
  induction h with
  | refl => exact hbase
  | step hreach hstep ih =>
    cases hstep with
    | like u pk => exact likeCount_le_one_likeState _ u pk ih
    | unlike u pk => exact likeCount_le_one_unlikeState _ u pk ih

/-- Witness: after user 1 likes post 10 in `storeW`, the pair (1, 10) has at
most one like row. -/
theorem at_most_one_like_per_pair_witness :
    likeCount (likeState storeW 1 10) 1 10 ≤ 1 :=
  at_most_one_like_per_pair storeW (likeState storeW 1 10) rfl
    (.step (.refl storeW) (.like 1 10 storeW)) 1 10

/-- C2: the feed is exactly (as a multiset, hence also element-wise) the
posts whose author the user follows, ordered by creation time descending;
an empty following set yields the empty feed. Side-effect freedom is
recorded by `getFeed`'s type: it is a function of the store that returns
only a list. -/
theorem getFeed_spec (s : Store) (u : Nat) :
    List.Perm (getFeed s u) (s.posts.filter (fun p => (followees s u).contains p.author))
  ∧ (∀ p, p ∈ getFeed s u ↔ p ∈ s.posts ∧ p.author ∈ followees s u)
  ∧ (getFeed s u).Pairwise (fun a b => b.created_at ≤ a.created_at)
  ∧ (followees s u = [] → getFeed s u = []) := by
  refine ⟨perm_sortDescBy _ _, ?_, pairwise_sortDescBy _ _, ?_⟩
  · intro p
    rw [getFeed, mem_sortDescBy, List.mem_filter]
    simp [List.elem_iff]
  · intro h
    rw [getFeed, h]
    have hfil : s.posts.filter (fun p => (([] : List Nat).contains p.author)) = [] := by
      simp
    rw [hfil]
    rfl

/-- Witness: user 1 follows nobody in `storeW`, so the feed is empty. -/
theorem getFeed_spec_witness : getFeed storeW 1 = [] :=
  (getFeed_spec storeW 1).2.2.2 rfl

/-- A store where user 1 follows user 2 and user 2 authored twelve posts,
used to exercise feed pagination concretely. -/
def storeMany : Store :=
  { users := [1, 2], following := [(1, 2)],
    posts := (List.range 12).map
      (fun i => { id := i, author := 2, title := "p", content := "c", created_at := i }),
    likes := [], notifications := [], clock := 12 }

/-- C9 counterexample: the feed's page size is not configurable. In
`storeMany` user 1's feed holds 12 posts, yet requesting its first page
with a `page_size` query parameter of 50 returns only 10 posts: the feed's
paginator ignores the parameter (`feedPageSize (some 50)` is 10, not 50),
refuting the claim that a query parameter can raise the feed's page size
towards a maximum of 100. -/
theorem feed_pagination_counterexample :
    feedPageSize (some 50) = 10 ∧ feedPageSize (some 50) ≠ 50 ∧
    (getFeed storeMany 1).length = 12 ∧
    (feedPage storeMany 1 1 (some 50)).length = 10 :=
  ⟨rfl, by decide, by decide, by decide⟩

/-- C9 (amended): the feed is returned as a paginated sequence with fixed
page size 10 — `FeedView` uses the settings-default paginator, which has no
page-size query parameter — so the resolved page size is 10 whatever
parameter is sent and every response page of the feed holds at most 10
posts. -/
theorem feed_pagination_fixed_spec :
    (∀ ps, feedPageSize ps = 10)
  ∧ (∀ s u pageNum ps, (feedPage s u pageNum ps).length ≤ 10) := by
  refine ⟨fun ps => rfl, ?_⟩
  intro s u pageNum ps
  unfold feedPage feedPageSize
  simp only
  exact List.length_take_le _ _

/-- The mark-as-read update never changes a notification's recipient. -/
theorem markReadRow_recipient (u : Nat) (n : Notification) :
    (markReadRow u n).recipient = n.recipient := by
  unfold markReadRow
  split <;> rfl

/-- If a user has no notifications in a list, they still have none after
the mark-as-read update. -/
theorem filter_recipient_map_markReadRow (l : List Notification) (u B : Nat)
    (h : l.filter (fun n => n.recipient == B) = []) :
    (l.map (markReadRow u)).filter (fun n => n.recipient == B) = [] := by
  rw [List.filter_eq_nil_iff] at h ⊢
  intro n hn
  rcases List.mem_map.mp hn with ⟨m, hm, rfl⟩
  rw [markReadRow_recipient]
  exact h m hm

/-- A user with no notifications in a list has no unread ones either. -/
theorem filter_unread_eq_nil (l : List Notification) (B : Nat)
    (h : l.filter (fun n => n.recipient == B) = []) :
    l.filter (fun n => n.recipient == B && n.read == false) = [] := by
  rw [List.filter_eq_nil_iff] at h ⊢
  intro n hn
  have := h n hn
  simp only [Bool.and_eq_true] at *
  tauto

/-- C5: from a store where user B has no notifications, after user A
(A ≠ B) likes B's post, B's unread count is 1; listing B's notifications
returns exactly the one notification for that post (recipient B, actor A,
verb "liked your post") — already marked read — and afterwards B's unread
count is 0. -/
theorem like_notification_scenario (s : Store) (A B pk : Nat) (post : Post)
    (hfp : findPost s pk = some post) (hauth : post.author = B) (hne : A ≠ B)
    (hnl : Like.mk A pk ∉ s.likes)
    (hnn : s.notifications.filter (fun n => n.recipient == B) = []) :
    ∃ s₁, like s A pk = .ok (Like.mk A pk, s₁) ∧
      unreadCount s₁ B = 1 ∧
      (listNotifications s₁ B).1 =
        [{ recipient := B, actor := A, verb := "liked your post",
           object_id := pk, read := true, created_at := s.clock }] ∧
      unreadCount (listNotifications s₁ B).2 B = 0 := by
  have hba : post.author ≠ A := by rw [hauth]; exact Ne.symm hne
  refine ⟨{ s with
              likes := s.likes ++ [Like.mk A pk],
              notifications := s.notifications ++
                [{ recipient := post.author, actor := A, verb := "liked your post",
                   object_id := pk, read := false, created_at := s.clock }],
              clock := s.clock + 1 },
    ?_, ?_, ?_, ?_⟩
  · simp [like, hfp, hnl, hba]
  · unfold unreadCount
    simp only [List.filter_append]
    rw [filter_unread_eq_nil s.notifications B hnn]
    simp [hauth]
  · unfold listNotifications markAllRead notificationsFor
    simp only [List.map_append, List.filter_append]
    rw [filter_recipient_map_markReadRow s.notifications B B hnn]
    simp [markReadRow, hauth, sortDescBy, insertDescBy]
  · unfold listNotifications markAllRead unreadCount
    simp only [List.map_append, List.filter_append]
    rw [filter_unread_eq_nil _ B (filter_recipient_map_markReadRow s.notifications B B hnn)]
    simp [markReadRow, hauth]

/-- Witness: in `storeW`, user 1 likes post 10 authored by user 2 and the
whole notification scenario unfolds concretely. -/
theorem like_notification_scenario_witness :
    ∃ s₁, like storeW 1 10 = .ok (Like.mk 1 10, s₁) ∧
      unreadCount s₁ 2 = 1 ∧
      (listNotifications s₁ 2).1 =
        [{ recipient := 2, actor := 1, verb := "liked your post",
           object_id := 10, read := true, created_at := storeW.clock }] ∧
      unreadCount (listNotifications s₁ 2).2 2 = 0 :=
  like_notification_scenario storeW 1 2 10 ⟨10, 2, "t", "c", 0⟩ rfl rfl
    (by decide) (by decide) rfl

/-- C10: every notification in the response of `listNotifications` has
`read = true`, because the bulk mark-as-read update runs before the list is
assembled from the updated store. -/
theorem listNotifications_all_read (s : Store) (u : Nat) :
    ∀ n ∈ (listNotifications s u).1, n.read = true := by
  intro n hn
  unfold listNotifications notificationsFor markAllRead at hn
  simp only at hn
  rw [mem_sortDescBy] at hn
  rcases List.mem_filter.mp hn with ⟨hmem, hrec⟩
  rcases List.mem_map.mp hmem with ⟨m, hm, rfl⟩
  rw [markReadRow_recipient] at hrec
  unfold markReadRow
  by_cases hc : (m.recipient == u && m.read == false) = true
  · rw [if_pos hc]
  · rw [if_neg hc]
    simp only [Bool.and_eq_true, beq_iff_eq] at hrec hc ⊢
    rcases Bool.eq_false_or_eq_true m.read with hr | hr
    · exact hr
    · exact absurd ⟨hrec, hr⟩ hc

/-- Witness: listing the notifications of user 2 in a store holding one
unread notification for them returns it with `read = true`. -/
theorem listNotifications_all_read_witness :
    ({ recipient := 2, actor := 1, verb := "liked your post", object_id := 10,
       read := true, created_at := 7 } : Notification).read = true :=
  listNotifications_all_read
    { storeW with notifications :=
        [{ recipient := 2, actor := 1, verb := "liked your post", object_id := 10,
           read := false, created_at := 7 }] } 2
    { recipient := 2, actor := 1, verb := "liked your post", object_id := 10,
      read := true, created_at := 7 } (by decide)

end SocialMedia
